import Mathlib

/-!
Verification development for the PDF outline extractor (`src/utils.py`,
`src/main.py`).  The Python source is shallowly embedded: text is `List Char`,
Python floats (font sizes, coordinates, elapsed seconds) are embedded as exact
rationals `ℚ`, page numbers are `Nat`, fallible code returns `Except`.
Python's `re` substitutions used by `fix_text_spacing` are modelled by
dedicated recursive functions on character lists; Python character classes
(`\s`, `\d`, `[a-z]`, `[A-Z]`, `str.isupper`, `str.isdigit`, `str.lower`) are
modelled on their ASCII fragment, which covers every string the repository
manipulates.
-/

set_option maxRecDepth 4000

/-- Text is modelled as a list of characters (Python `str`). -/
abbrev Str := List Char

/-- Coerce a Lean string literal to the `Str` model. -/
def s (x : String) : Str := x.data

/-- ASCII lower-case letter, the `[a-z]` class of `fix_text_spacing`'s regexes. -/
def isLowerAZ (c : Char) : Bool := 'a' ≤ c && c ≤ 'z'

/-- ASCII upper-case letter, the `[A-Z]` class. -/
def isUpperAZ (c : Char) : Bool := 'A' ≤ c && c ≤ 'Z'

/-- ASCII letter, the `[a-zA-Z]` class. -/
def isLetterAZ (c : Char) : Bool := isLowerAZ c || isUpperAZ c

/-- Decimal digit, Python's `\d` / `str.isdigit` on ASCII input. -/
def isDigit09 (c : Char) : Bool := '0' ≤ c && c ≤ '9'

/-- Python whitespace (`\s`, `str.strip`), ASCII fragment:
space, tab, newline, vertical tab, form feed, carriage return. -/
def isSpacePy (c : Char) : Bool :=
  c = ' ' || c = '\t' || c = '\n' || c = '\x0b' || c = '\x0c' || c = '\r'

/-- The sentence-ending class `[.!?]` used by `extract_simple_text`'s split. -/
def isSentPunct (c : Char) : Bool := c = '.' || c = '!' || c = '?'

/-- The punctuation class `[.,!?]` used by `fix_text_spacing`'s cleanup regexes. -/
def isPunct4 (c : Char) : Bool := c = '.' || c = ',' || c = '!' || c = '?'

/-- ASCII lower-casing, Python `str.lower` on ASCII input. -/
def lowerCh (c : Char) : Char :=
  if isUpperAZ c then Char.ofNat (c.toNat + 32) else c

/-- Python `str.lower`, mapped over the characters. -/
def lowerL (t : Str) : Str := t.map lowerCh

/-- Python `str.startswith` for a single pattern. -/
def startsWithL : Str → Str → Bool
  | [], _ => true
  | _ :: _, [] => false
  | p :: ps, c :: cs => p = c && startsWithL ps cs

/-- Python `str.startswith` with a tuple of patterns (any of them). -/
def startsWithAnyL (t : Str) (pats : List Str) : Bool :=
  pats.any (fun p => startsWithL p t)

/-- Python `in` on strings: does `needle` occur as a contiguous substring? -/
def containsSub (needle : Str) : Str → Bool
  | [] => needle.isEmpty
  | c :: rest => startsWithL needle (c :: rest) || containsSub needle rest

/-- Python `str.strip`: drop leading and trailing whitespace. -/
def stripL (t : Str) : Str :=
  ((t.dropWhile isSpacePy).reverse.dropWhile isSpacePy).reverse

/-- Worker for `replaceAll`; `fuel` bounds the recursion and is instantiated
with the text length, which suffices because a non-empty pattern consumes at
least one character per step. -/
def replaceAllGo (old new : Str) : Nat → Str → Str
  | 0, t => t
  | Nat.succ fuel, t =>
    match t with
    | [] => []
    | c :: rest =>
      if startsWithL old (c :: rest) then
        new ++ replaceAllGo old new fuel (List.drop old.length (c :: rest))
      else
        c :: replaceAllGo old new fuel rest

/-- Python `str.replace old new`: replace every non-overlapping occurrence,
scanning left to right.  All substitution-table patterns are non-empty, so the
empty-pattern case (where Python would interleave `new` everywhere) is mapped
to the identity and never exercised. -/
def replaceAll (old new t : Str) : Str :=
  if old.isEmpty then t else replaceAllGo old new t.length t

/-- `re.sub(r'([a-z])([A-Z])', r'\1 \2', text)`: insert a space at each
lower-to-upper boundary; both matched characters are consumed, so scanning
resumes after them, as in `re.sub`. -/
def camelSub : Str → Str
  | [] => []
  | [c] => [c]
  | c1 :: c2 :: rest =>
    if isLowerAZ c1 && isUpperAZ c2 then c1 :: ' ' :: c2 :: camelSub rest
    else c1 :: camelSub (c2 :: rest)

/-- `re.sub(r'([a-zA-Z])(\d)', r'\1 \2', text)`. -/
def letterDigitSub : Str → Str
  | [] => []
  | [c] => [c]
  | c1 :: c2 :: rest =>
    if isLetterAZ c1 && isDigit09 c2 then c1 :: ' ' :: c2 :: letterDigitSub rest
    else c1 :: letterDigitSub (c2 :: rest)

/-- `re.sub(r'(\d)([a-zA-Z])', r'\1 \2', text)`. -/
def digitLetterSub : Str → Str
  | [] => []
  | [c] => [c]
  | c1 :: c2 :: rest =>
    if isDigit09 c1 && isLetterAZ c2 then c1 :: ' ' :: c2 :: digitLetterSub rest
    else c1 :: digitLetterSub (c2 :: rest)

/-- `re.sub(r'\s+', ' ', text)`: collapse each maximal whitespace run to a
single space (processed pairwise: a whitespace character followed by another
whitespace character is dropped, the last of a run becomes `' '`). -/
def collapseWs : Str → Str
  | [] => []
  | [c] => [if isSpacePy c then ' ' else c]
  | c1 :: c2 :: rest =>
    if isSpacePy c1 && isSpacePy c2 then collapseWs (c2 :: rest)
    else (if isSpacePy c1 then ' ' else c1) :: collapseWs (c2 :: rest)

/-- Worker for `rmWsBeforePunct`, fuelled by the text length. -/
def rmWsBeforePunctGo : Nat → Str → Str
  | 0, t => t
  | Nat.succ fuel, t =>
    match t with
    | [] => []
    | c :: rest =>
      if isSpacePy c then
        match List.dropWhile isSpacePy rest with
        | p :: tail =>
          if isPunct4 p then p :: rmWsBeforePunctGo fuel tail
          else (c :: List.takeWhile isSpacePy rest) ++
            rmWsBeforePunctGo fuel (p :: tail)
        | [] => c :: List.takeWhile isSpacePy rest
      else c :: rmWsBeforePunctGo fuel rest

/-- `re.sub(r'\s+([.,!?])', r'\1', text)`: a whitespace run immediately
followed by `.,!?` is deleted (the punctuation kept); other whitespace is
untouched. -/
def rmWsBeforePunct (t : Str) : Str := rmWsBeforePunctGo t.length t

/-- `re.sub(r'([.,!?])([A-Za-z])', r'\1 \2', text)`: insert a space between a
punctuation mark and an immediately following letter; both characters are
consumed per match. -/
def punctLetterSub : Str → Str
  | [] => []
  | [c] => [c]
  | c1 :: c2 :: rest =>
    if isPunct4 c1 && isLetterAZ c2 then c1 :: ' ' :: c2 :: punctLetterSub rest
    else c1 :: punctLetterSub (c2 :: rest)

/-- Worker for `splitSent`, fuelled by the text length. -/
def splitSentGo : Nat → Str → Str → List Str
  | 0, rem, cur => [cur.reverse ++ rem]
  | Nat.succ fuel, t, cur =>
    match t with
    | [] => [cur.reverse]
    | c :: rest =>
      if isSentPunct c then
        cur.reverse :: splitSentGo fuel (List.dropWhile isSentPunct rest) []
      else splitSentGo fuel rest (c :: cur)

/-- `re.split(r'[.!?]+', text)`: split at maximal runs of sentence
punctuation, keeping (possibly empty) segments between runs. -/
def splitSent (t : Str) : List Str := splitSentGo t.length t []

-- common_fixes: 146 distinct entries, source order preserved
def common_fixes : List (String × String) := [
  ("Hereare", "Here are"),
  ("isabbreviatedas", "is abbreviated as"),
  ("OOPsinterviewquestionsandanswersforfresheraswellexperienced", "OOPs interview questions and answers for fresher as well experienced"),
  ("candidatestogettheirdream", "candidates to get their dream"),
  ("job", "job"),
  ("Whatis", "What is"),
  ("Whatisaclass", "What is a class"),
  ("WhatisanObject", "What is an Object"),
  ("WhatisEncapsulation", "What is Encapsulation"),
  ("WhatisPolymorphism", "What is Polymorphism"),
  ("WhatisInheritance", "What is Inheritance"),
  ("Whataremanipulators", "What are manipulators"),
  ("WhatisanInlinefunction", "What is an Inline function"),
  ("Whatisavirtualfunction", "What is a virtual function"),
  ("Whatisoperatoroverloading", "What is operator overloading"),
  ("Whatisthesuperkeyword", "What is the super keyword"),
  ("WhatisearlyandlateBinding", "What is early and late Binding"),
  ("Whatarealltheoperatorsthatcannotbeoverloaded", "What are all the operators that cannot be overloaded"),
  ("Whetherstaticmethodcanusenonstaticmembers", "Whether static method can use non static members"),
  ("Whatareabaseclass,subclass,andsuperclass", "What are a base class, subclass, and superclass"),
  ("WhichOOPSconceptisusedasareusemechanism", "Which OOPS concept is used as a reuse mechanism"),
  ("OOPSisabbreviatedas", "OOPS is abbreviated as"),
  ("OOPSis", "OOPS is"),
  ("What isa", "What is a"),
  ("representationof", "representation of"),
  ("templatethat", "template that"),
  ("objectis", "object is"),
  ("andidentity", "and identity"),
  ("restrictedto", "restricted to"),
  ("assigningbehavior", "assigning behavior"),
  ("subclassto", "subclass to"),
  ("somethingthat", "something that"),
  ("declaredin", "declared in"),
  ("classshares", "class shares"),
  ("classiscalled", "class is called"),
  ("thenitiscalled", "then it is called"),
  ("functionswhich", "functions which"),
  ("conjunctionwiththe", "conjunction with the"),
  ("insertion(<<)andextraction(>>)operatorson", "insertion(<<) and extraction(>>) operators on"),
  ("methodused", "method used"),
  ("stateof", "state of"),
  ("sameas", "same as"),
  ("constructormusthavenoreturntype", "constructor must have no return type"),
  ("methodwhich", "method which"),
  ("whenthe", "when the"),
  ("ofscope", "of scope"),
  ("namebut", "name but"),
  ("techniqueused", "technique used"),
  ("instructsto", "instructs to"),
  ("completebody", "complete body"),
  ("functionwherever", "function wherever"),
  ("usedin", "used in"),
  ("functionof", "function of"),
  ("functionalitycanbe", "functionality can be"),
  ("overriddenin", "overridden in"),
  ("implementedby", "implemented by"),
  ("calledvirtual", "called virtual"),
  ("givenduring", "given during"),
  ("ObjectOrientedProgrammingsystem", "Object Oriented Programming system"),
  ("inwhichprograms", "in which programs"),
  ("areconsideredasacollectionofobjects", "are considered as a collection of objects"),
  ("Eachobjectisnothingbutaninstance", "Each object is nothing but an instance"),
  ("ofaclass", "of a class"),
  ("WritebasicconceptsofOOPS", "Write basic concepts of OOPS"),
  ("FollowingaretheconceptsofOOPS", "Following are the concepts of OOPS"),
  ("Aclassissimplyarepresentation", "A class is simply a representation"),
  ("ofatypeofobject", "of a type of object"),
  ("Itistheblueprint/plan/template", "It is the blueprint/plan/template"),
  ("thatdescribesthedetailsofanobject", "that describes the details of an object"),
  ("Anobjectisaninstanceofaclass", "An object is an instance of a class"),
  ("Ithasitsownstate", "It has its own state"),
  ("behaviorandidentity", "behavior and identity"),
  ("Encapsulationisanattributeofanobject", "Encapsulation is an attribute of an object"),
  ("anditcontainsalldatawhichishidden", "and it contains all data which is hidden"),
  ("Thathiddendatacanberestricted", "That hidden data can be restricted"),
  ("tothemembersofthatclass", "to the members of that class"),
  ("LevelsarePublic", "Levels are Public"),
  ("Protected,Private", "Protected, Private"),
  ("InternalandProtectedInternal", "Internal and Protected Internal"),
  ("Polymorphismisnothingbutassigning", "Polymorphism is nothing but assigning"),
  ("behaviororvalueinasubclass", "behavior or value in a subclass"),
  ("tosomethingthatwasalreadydeclared", "to something that was already declared"),
  ("inthemainclass", "in the main class"),
  ("Simply,polymorphism", "Simply, polymorphism"),
  ("takesmorethanoneform", "takes more than one form"),
  ("Inheritanceisaconceptwhereoneclass", "Inheritance is a concept where one class"),
  ("sharesthestructureandbehavior", "shares the structure and behavior"),
  ("definedinanotherclass", "defined in another class"),
  ("IfInheritanceappliedtooneclass", "If Inheritance applied to one class"),
  ("iscalledSingleInheritance", "is called Single Inheritance"),
  ("andifitdependsonmultipleclasses", "and if it depends on multiple classes"),
  ("thenitiscalledmultipleInheritance", "then it is called multiple Inheritance"),
  ("Manipulatorsarethefunctions", "Manipulators are the functions"),
  ("whichcanbeusedinconjunction", "which can be used in conjunction"),
  ("withtheinsertion", "with the insertion"),
  ("andextractionoperators", "and extraction operators"),
  ("onanobject", "on an object"),
  ("Examplesareendl", "Examples are endl"),
  ("andsetw", "and setw"),
  ("Explainthetermconstructor", "Explain the term constructor"),
  ("Aconstructorisamethod", "A constructor is a method"),
  ("usedtoinitializethestate", "used to initialize the state"),
  ("ofanobject", "of an object"),
  ("anditgetsinvoked", "and it gets invoked"),
  ("atthetimeofobjectcreation", "at the time of object creation"),
  ("Rulesforconstructorare", "Rules for constructor are"),
  ("ConstructorNameshouldbethesame", "Constructor Name should be the same"),
  ("asaclassname", "as a class name"),
  ("Adestructorisamethod", "A destructor is a method"),
  ("whichisautomaticallycalled", "which is automatically called"),
  ("whentheobjectismadeofscope", "when the object is made of scope"),
  ("ordestroyed", "or destroyed"),
  ("Destructornameisalsosameasclassname", "Destructor name is also same as class name"),
  ("butwiththetildesymbolbeforethename", "but with the tilde symbol before the name"),
  ("Aninlinefunctionisatechnique", "An inline function is a technique"),
  ("usedbythecompilersandinstructs", "used by the compilers and instructs"),
  ("toinsertcompletebodyofthefunction", "to insert complete body of the function"),
  ("whereverthatfunctionisused", "wherever that function is used"),
  ("intheprogramsourcecode", "in the program source code"),
  ("Avirtualfunctionisamemberfunction", "A virtual function is a member function"),
  ("anditsfunctionalitycanbeoverridden", "and its functionality can be overridden"),
  ("initsderivedclass", "in its derived class"),
  ("Thisfunctioncanbeimplemented", "This function can be implemented"),
  ("byusingakeywordcalledvirtual", "by using a keyword called virtual"),
  ("anditcanbegivenduringfunctiondeclaration", "and it can be given during function declaration"),
  ("Operatoroverloadingisafunction", "Operator overloading is a function"),
  ("wheredifferentoperatorsareapplied", "where different operators are applied"),
  ("anddefineddifferently", "and defined differently"),
  ("Thesuperkeywordisusedtoinvoke", "The super keyword is used to invoke"),
  ("theoverriddenmethod", "the overridden method"),
  ("whichoverridesoneofitssuperclassmethods", "which overrides one of its superclass methods"),
  ("Earlybindingreferstotheassignment", "Early binding refers to the assignment"),
  ("ofvaluestovariablesduringdesigntime", "of values to variables during design time"),
  ("Latebindingreferstotheassignment", "Late binding refers to the assignment"),
  ("ofvaluestovariablesatruntime", "of values to variables at runtime"),
  ("Virtualvoidfunction", "Virtual void function"),
  ("Purevirtual", "Pure virtual"),
  ("Followingaretheoperatorsthatcannotbeoverloaded", "Following are the operators that cannot be overloaded"),
  ("False", "False"),
  ("Whatareabaseclass", "What are a base class"),
  ("subclass,andsuperclass", "subclass, and superclass"),
  ("Thebaseclassistheparentclass", "The base class is the parent class"),
  ("Thesubclassisthechildclass", "The subclass is the child class"),
  ("Thesuperclassistheparentclass", "The superclass is the parent class"),
  ("InheritanceistheOOPSconcept", "Inheritance is the OOPS concept"),
  ("thatcanbeusedasareusemechanism", "that can be used as a reuse mechanism")
]

-- additional_fixes: 158 distinct entries, source order preserved
def additional_fixes : List (String × String) := [
  ("Questi on s", "Questions"),
  ("c and id at es", "candidates"),
  ("dre a m", "dream"),
  ("Wh a t", "What"),
  ("abbrevi at ed", "abbreviated"),
  ("Progr a mm in g", "Programming"),
  ("progr a ms", "programs"),
  ("c on sidered", "considered"),
  ("E a ch", "Each"),
  ("noth in g", "nothing"),
  ("inst an ce", "instance"),
  ("cl as s", "class"),
  ("b as ic", "basic"),
  ("c on cepts", "concepts"),
  ("Follow in g", "Following"),
  ("Abstr a ction", "Abstraction"),
  ("Enc a psul at ion", "Encapsulation"),
  ("Inherit an ce", "Inheritance"),
  ("Polymorphism", "Polymorphism"),
  ("aclass", "a class"),
  ("issimply", "is simply"),
  ("arepresentation", "a representation"),
  ("ofatype", "of a type"),
  ("Itisthe", "It is the"),
  ("blueprint/plan/template", "blueprint/plan/template"),
  ("thatdescribes", "that describes"),
  ("thedetailsofanobject", "the details of an object"),
  ("Anobject", "An object"),
  ("isaninstance", "is an instance"),
  ("Ithasitsownstate", "It has its own state"),
  ("behaviorandidentity", "behavior and identity"),
  ("isanattribute", "is an attribute"),
  ("anditcontains", "and it contains"),
  ("alldatawhichishidden", "all data which is hidden"),
  ("Thathidden", "That hidden"),
  ("datacanberestricted", "data can be restricted"),
  ("tothemembers", "to the members"),
  ("ofthatclass", "of that class"),
  ("Levelsare", "Levels are"),
  ("Public,Protected", "Public, Protected"),
  ("Private,Internal", "Private, Internal"),
  ("andProtectedInternal", "and Protected Internal"),
  ("isnothingbutassigning", "is nothing but assigning"),
  ("behaviororvalue", "behavior or value"),
  ("inasubclass", "in a subclass"),
  ("tosomething", "to something"),
  ("thatwasalreadydeclared", "that was already declared"),
  ("inthemainclass", "in the main class"),
  ("takesmorethanoneform", "takes more than one form"),
  ("isaconcept", "is a concept"),
  ("whereoneclass", "where one class"),
  ("sharesthestructure", "shares the structure"),
  ("andbehavior", "and behavior"),
  ("definedinanotherclass", "defined in another class"),
  ("appliedtooneclass", "applied to one class"),
  ("iscalledSingle", "is called Single"),
  ("andifitdepends", "and if it depends"),
  ("onmultipleclasses", "on multiple classes"),
  ("thenitiscalled", "then it is called"),
  ("multipleInheritance", "multiple Inheritance"),
  ("arethefunctions", "are the functions"),
  ("whichcanbeused", "which can be used"),
  ("inconjunction", "in conjunction"),
  ("withtheinsertion", "with the insertion"),
  ("andextractionoperators", "and extraction operators"),
  ("onanobject", "on an object"),
  ("Examplesare", "Examples are"),
  ("endland", "endl and"),
  ("setw", "setw"),
  ("Explaintheterm", "Explain the term"),
  ("Aconstructor", "A constructor"),
  ("isamethod", "is a method"),
  ("usedtoinitialize", "used to initialize"),
  ("thestate", "the state"),
  ("anditgets", "and it gets"),
  ("invokedat", "invoked at"),
  ("thetimeof", "the time of"),
  ("objectcreation", "object creation"),
  ("Rulesfor", "Rules for"),
  ("constructorare", "constructor are"),
  ("Nameshouldbe", "Name should be"),
  ("thesameas", "the same as"),
  ("aclassname", "a class name"),
  ("Adestructor", "A destructor"),
  ("whichisautomatically", "which is automatically"),
  ("calledwhen", "called when"),
  ("theobjectismade", "the object is made"),
  ("ofscope", "of scope"),
  ("ordestroyed", "or destroyed"),
  ("Destructorname", "Destructor name"),
  ("isalsosame", "is also same"),
  ("asclassname", "as class name"),
  ("butwiththe", "but with the"),
  ("tildesymbol", "tilde symbol"),
  ("beforethename", "before the name"),
  ("Aninline", "An inline"),
  ("functionisatechnique", "function is a technique"),
  ("usedbythe", "used by the"),
  ("compilersand", "compilers and"),
  ("instructsto", "instructs to"),
  ("insertcomplete", "insert complete"),
  ("bodyofthe", "body of the"),
  ("functionwherever", "function wherever"),
  ("thatfunctionisused", "that function is used"),
  ("intheprogram", "in the program"),
  ("sourcecode", "source code"),
  ("Avirtual", "A virtual"),
  ("functionisamember", "function is a member"),
  ("anditsfunctionality", "and its functionality"),
  ("canbeoverridden", "can be overridden"),
  ("initsderived", "in its derived"),
  ("Thisfunction", "This function"),
  ("canbeimplemented", "can be implemented"),
  ("byusinga", "by using a"),
  ("keywordcalled", "keyword called"),
  ("anditcanbe", "and it can be"),
  ("givenduring", "given during"),
  ("functiondeclaration", "function declaration"),
  ("Operatoroverloading", "Operator overloading"),
  ("isafunction", "is a function"),
  ("wheredifferent", "where different"),
  ("operatorsare", "operators are"),
  ("appliedand", "applied and"),
  ("defineddifferently", "defined differently"),
  ("Thesuper", "The super"),
  ("keywordisused", "keyword is used"),
  ("toinvoke", "to invoke"),
  ("theoverridden", "the overridden"),
  ("whichoverrides", "which overrides"),
  ("oneofits", "one of its"),
  ("superclassmethods", "superclass methods"),
  ("Earlybinding", "Early binding"),
  ("referstothe", "refers to the"),
  ("assignmentof", "assignment of"),
  ("valuestovariables", "values to variables"),
  ("duringdesigntime", "during design time"),
  ("Latebinding", "Late binding"),
  ("atruntime", "at runtime"),
  ("Virtualvoid", "Virtual void"),
  ("Purevirtual", "Pure virtual"),
  ("Followingare", "Following are"),
  ("theoperatorsthat", "the operators that"),
  ("cannotbeoverloaded", "cannot be overloaded"),
  ("Whatare", "What are"),
  ("abaseclass", "a base class"),
  ("subclass,and", "subclass, and"),
  ("superclass", "superclass"),
  ("Thebase", "The base"),
  ("classisthe", "class is the"),
  ("parentclass", "parent class"),
  ("Thesubclass", "The subclass"),
  ("isthechild", "is the child"),
  ("Thesuperclass", "The superclass"),
  ("Inheritanceisthe", "Inheritance is the"),
  ("OOPSconcept", "OOPS concept"),
  ("thatcanbe", "that can be"),
  ("usedas", "used as"),
  ("areusemechanism", "a reuse mechanism")
]

/-- The `for old, new in table.items(): text = text.replace(old, new)` loops
of `fix_text_spacing`: apply a substitution table sequentially, in
dictionary (insertion) order. -/
def applyFixes (tbl : List (String × String)) (t : Str) : Str :=
  tbl.foldl (fun t p => replaceAll p.1.data p.2.data t) t

/-- `fix_text_spacing` (`src/utils.py` lines 170-519): the two hard-coded
substitution tables applied by `str.replace` in dictionary order, then the
camel-case / letter-digit regex repairs, then whitespace and punctuation
cleanup, then `strip`. -/
def fix_text_spacing (text : Str) : Str :=
  let t1 := applyFixes common_fixes text
  let t2 := camelSub t1
  let t3 := letterDigitSub t2
  let t4 := digitLetterSub t3
  let t5 := applyFixes additional_fixes t4
  let t6 := collapseWs t5
  let t7 := rmWsBeforePunct t6
  let t8 := punctLetterSub t7
  stripL t8


/-! ## Data model of the ingestion layer

`pdfminer`'s page iterator (`extract_pages`) is the external collaborator: it
yields pages of layout objects and may raise while iterating.  A document is
embedded as the stream the iterator produces: a list whose items are either a
page or the exception the iterator raises at that point. -/

/-- One `LTChar` record inside a text container: font size and font name. -/
structure CharRec where
  size : ℚ
  fontname : Str
deriving DecidableEq, Repr

/-- One layout object of a page (`LTTextContainer` when `isTextContainer`,
any other layout object otherwise), with its text, characters and box. -/
structure PdfObj where
  isTextContainer : Bool
  rawText : Str
  chars : List CharRec
  x0 : ℚ
  y0 : ℚ
  x1 : ℚ
  y1 : ℚ
deriving DecidableEq, Repr

/-- One page of the layout: its objects and its height (`layout.height`);
`none` models a layout object without a usable height, for which
`calculate_position` defaults to `"middle"`. -/
structure Page where
  objs : List PdfObj
  height : Option ℚ
deriving DecidableEq, Repr

/-- The stream produced by `extract_pages`: each item is a page, or the
exception message raised at that point of the iteration. -/
abbrev PdfDoc := List (Except Str Page)

/-- A positioned text fragment, the dictionary built per text container by
`extract_text_with_layout` / `extract_simple_text`. -/
structure Fragment where
  text : Str
  page : Nat
  x0 : ℚ
  y0 : ℚ
  x1 : ℚ
  y1 : ℚ
  font_size : ℚ
  font_name : Str
  is_bold : Bool
  is_italic : Bool
  position : Str
deriving DecidableEq, Repr

/-- Result record of `extract_font_info`. -/
structure FontInfo where
  size : ℚ
  name : Str
  is_bold : Bool
  is_italic : Bool
deriving DecidableEq, Repr

/-- `extract_font_info` (`src/utils.py` lines 522-552): fold over the
`LTChar` records of a container; size is the running maximum, name is the
last character's font name, bold/italic are OR-accumulated substring tests
on the lower-cased font name. -/
def extract_font_info (chars : List CharRec) : FontInfo :=
  chars.foldl
    (fun fi ch =>
      { size := max fi.size ch.size
        name := ch.fontname
        is_bold := fi.is_bold ||
          [s "bold", s "black", s "heavy"].any
            (fun w => containsSub w (lowerL ch.fontname))
        is_italic := fi.is_italic ||
          [s "italic", s "oblique"].any
            (fun w => containsSub w (lowerL ch.fontname)) })
    ⟨0, [], false, false⟩

/-- `calculate_position` (`src/utils.py` lines 555-586): coarse vertical
bucket of `y0` relative to the page height; `"middle"` when no height is
available. -/
def calculate_position (y0 : ℚ) (pageHeight : Option ℚ) : Str :=
  match pageHeight with
  | none => s "middle"
  | some h =>
    if y0 > h * 0.7 then s "top"
    else if y0 > h * 0.3 then s "middle"
    else s "bottom"

/-- Body of the structured per-object loop of `extract_text_with_layout`
(`src/utils.py` lines 86-107): build a fragment for each text container whose
stripped text has length greater than one.  In the source this whole loop is
nested under the `if page_num > 50` branch, after the `raise`. -/
def processLayoutObjs (page_num : Nat) (pg : Page) : List Fragment :=
  pg.objs.foldl
    (fun acc obj =>
      if obj.isTextContainer then
        let text := stripL obj.rawText
        if text ≠ [] ∧ text.length > 1 then
          let text := fix_text_spacing text
          let fi := extract_font_info obj.chars
          acc ++ [{ text := text, page := page_num
                    x0 := obj.x0, y0 := obj.y0, x1 := obj.x1, y1 := obj.y1
                    font_size := fi.size, font_name := fi.name
                    is_bold := fi.is_bold, is_italic := fi.is_italic
                    position := calculate_position obj.y0 pg.height }]
        else acc
      else acc)
    []

/-- The `try` body of `extract_text_with_layout` (`src/utils.py` lines
80-107): iterate pages with 1-based index; when the index exceeds 50, raise
`ValueError("PDF exceeds 50 page limit")`.  The per-object extraction loop is
indented under that `if` branch *after* the `raise` (the dead continuation is
kept here, sequenced behind the raise, exactly as in the source), so it never
contributes fragments. -/
def structuredLoop : Nat → PdfDoc → List Fragment → Except Str (List Fragment)
  | _, [], acc => Except.ok acc
  | _, Except.error e :: _, _ => Except.error e
  | n, Except.ok pg :: rest, acc =>
    if n > 50 then
      (Except.error (s "PDF exceeds 50 page limit") : Except Str Unit) >>= fun _ =>
        structuredLoop (n + 1) rest (acc ++ processLayoutObjs n pg)
    else
      structuredLoop (n + 1) rest acc

/-- Fragments produced by one page of the fallback `extract_simple_text`
(`src/utils.py` lines 132-163): concatenate the text of every text container
with a trailing space, normalize the stripped page text, split it at sentence
punctuation, and emit one default-styled fragment per segment of length
greater than 5. -/
def simplePageFrags (page_num : Nat) (pg : Page) : List Fragment :=
  let page_text := pg.objs.foldl
    (fun t obj => if obj.isTextContainer then t ++ obj.rawText ++ [' '] else t) []
  if stripL page_text ≠ [] then
    let cleaned := fix_text_spacing (stripL page_text)
    (splitSent cleaned).foldl
      (fun acc sentence =>
        let sentence := stripL sentence
        if sentence ≠ [] ∧ sentence.length > 5 then
          acc ++ [{ text := sentence, page := page_num
                    x0 := 0, y0 := 0, x1 := 0, y1 := 0
                    font_size := 12, font_name := []
                    is_bold := false, is_italic := false
                    position := s "middle" }]
        else acc)
      []
  else []

/-- Page loop of `extract_simple_text` (`src/utils.py` lines 128-163): stop
silently past page 50 (`break`); an iterator exception is caught by the
surrounding `try`, which returns the fragments accumulated so far. -/
def simpleLoop : Nat → PdfDoc → List Fragment → List Fragment
  | _, [], acc => acc
  | _, Except.error _ :: _, acc => acc
  | n, Except.ok pg :: rest, acc =>
    if n > 50 then acc
    else simpleLoop (n + 1) rest (acc ++ simplePageFrags n pg)

/-- `extract_simple_text` (`src/utils.py` lines 121-167). -/
def extract_simple_text (pdf : PdfDoc) : List Fragment :=
  simpleLoop 1 pdf []

/-- `extract_text_with_layout` (`src/utils.py` lines 66-118): run the
structured extraction; on any exception, or when it yields no fragments,
fall back to `extract_simple_text`. -/
def extract_text_with_layout (pdf : PdfDoc) : List Fragment :=
  match structuredLoop 1 pdf [] with
  | Except.error _ => extract_simple_text pdf
  | Except.ok elems =>
    if elems.isEmpty then extract_simple_text pdf else elems

/-! ## Heading classification and outline assembly -/

/-- Heading level.  The source uses the literal strings `"H1"`, `"H2"`,
`"H3"`; they are embedded as an enumeration. -/
inductive Level where
  | H1
  | H2
  | H3
deriving DecidableEq, Repr

/-- Rank of a level in the order H3 < H2 < H1 (larger rank = more
prominent heading). -/
def Level.rank : Level → Nat
  | Level.H1 => 3
  | Level.H2 => 2
  | Level.H3 => 1

/-- A classified heading, the dictionary appended by `analyze_headings`. -/
structure Heading where
  level : Level
  text : Str
  page : Nat
  font_size : ℚ
  position : Str
deriving DecidableEq, Repr

/-- Python `str.isupper` (ASCII fragment): at least one cased character and
no lower-case cased character. -/
def pyIsUpper (t : Str) : Bool :=
  t.any isLetterAZ && t.all (fun c => !isLowerAZ c)

/-- `classify_heading_level` (`src/utils.py` lines 637-677): ordered
`if`/`elif` rule chain over the font-size ratio, boldness, position and text
patterns.  The H3 chain divides `avg_font_size` by `max_font_size` without a
zero guard; with `ℚ` division this is `0` when `max_font_size = 0`, the case
in which Python would instead raise before returning — inside the pipeline
`analyze_headings` only calls this with `max_font_size > 0`. -/
def classify_heading_level (text : Str) (font_size : ℚ) (is_bold : Bool)
    (position : Str) (max_font_size avg_font_size : ℚ) : Option Level :=
  let font_ratio := if max_font_size > 0 then font_size / max_font_size else 0
  if font_ratio > 0.8 ∨
      (font_ratio > 0.6 ∧ is_bold = true ∧ position = s "top") ∨
      startsWithAnyL text
        [s "Chapter", s "Section", s "Part", s "Introduction", s "Conclusion"] = true ∨
      (text.length < 50 ∧ pyIsUpper text = true) then
    some Level.H1
  else if font_ratio > 0.5 ∨
      (font_ratio > 0.4 ∧ is_bold = true) ∨
      startsWithAnyL text
        [s "1.", s "2.", s "3.", s "4.", s "5.", s "6.", s "7.", s "8.", s "9."] = true ∨
      (text.length < 80 ∧ (text.take 3).any isDigit09 = true) then
    some Level.H2
  else if font_ratio > 0.3 ∨
      (font_ratio > 0.25 ∧ is_bold = true) ∨
      startsWithAnyL text [['•'], ['●'], ['-'], ['○']] = true ∨
      (text.length < 120 ∧ font_ratio > avg_font_size / max_font_size) then
    some Level.H3
  else
    none

/-- The classification pass of `analyze_headings` (`src/utils.py` lines
609-629): skip fragments whose text length is below 2 or above 200, classify
the rest, and collect the matches in order. -/
def classifyAll (elems : List Fragment) (max_font_size avg_font_size : ℚ) :
    List Heading :=
  elems.foldl
    (fun acc e =>
      if e.text.length < 2 ∨ e.text.length > 200 then acc
      else
        match classify_heading_level e.text e.font_size e.is_bold e.position
            max_font_size avg_font_size with
        | some lvl =>
          acc ++ [{ level := lvl, text := e.text, page := e.page
                    font_size := e.font_size, position := e.position }]
        | none => acc)
    []

/-- The Python sort key `(x["page"], -x["font_size"], x["position"] == "top")`
compared lexicographically (with `False < True` on the Boolean), as a Boolean
less-or-equal test. -/
def keyLe (a b : Heading) : Bool :=
  decide (a.page < b.page) ||
    (decide (a.page = b.page) &&
      (decide (-a.font_size < -b.font_size) ||
        (decide (-a.font_size = -b.font_size) &&
          ((if a.position = s "top" then (1 : Nat) else 0) ≤
            (if b.position = s "top" then (1 : Nat) else 0)))))

/-- Unsorted heading list of `analyze_headings`: font statistics over the
fragments with positive font size (`max` and arithmetic mean), then the
classification pass; no statistics means no headings. -/
def headingsPreSort (elems : List Fragment) : List Heading :=
  let font_sizes :=
    (elems.filter (fun e => decide (e.font_size > 0))).map (fun e => e.font_size)
  match font_sizes with
  | [] => []
  | f :: fs =>
    let max_font_size := fs.foldl max f
    let avg_font_size := (font_sizes.foldl (· + ·) 0) / (font_sizes.length : ℚ)
    classifyAll elems max_font_size avg_font_size

/-- `analyze_headings` (`src/utils.py` lines 589-634): classification pass
followed by Python's stable `list.sort` on the key above (embedded as a
stable merge sort). -/
def analyze_headings (elems : List Fragment) : List Heading :=
  (headingsPreSort elems).mergeSort keyLe

/-- `extract_title` (`src/utils.py` lines 680-707): first H1 heading, else
first H2 heading, else first fragment with text length in `(3, 100)`, top
position and positive font size, else the literal `"Untitled Document"`. -/
def extract_title (headings : List Heading) (text_elements : List Fragment) : Str :=
  match headings.find? (fun h => decide (h.level = Level.H1)) with
  | some h => h.text
  | none =>
    match headings.find? (fun h => decide (h.level = Level.H2)) with
    | some h => h.text
    | none =>
      match text_elements.find?
          (fun e => decide (e.text.length > 3 ∧ e.text.length < 100 ∧
            e.position = s "top" ∧ e.font_size > 0)) with
      | some e => e.text
      | none => s "Untitled Document"

/-- One entry of the final outline (`level`, `text`, `page`). -/
structure OutlineEntry where
  level : Level
  text : Str
  page : Nat
deriving DecidableEq, Repr

/-- Result of `extract_outline`: `title`, `outline`, and the optional
`error` field of the error shape. -/
structure OutlineResult where
  title : Str
  outline : List OutlineEntry
  error : Option Str
deriving DecidableEq, Repr

/-- `extract_outline` (`src/utils.py` lines 17-63).  The wall-clock reading
`time.time() - start_time` at the post-hoc check is an input, `elapsed`:
the pipeline itself is pure, so the only exception that can reach the
document-level `except` is the `TimeoutError`; it is converted to the fixed
error shape. -/
def extract_outline (pdf : PdfDoc) (elapsed : ℚ) : OutlineResult :=
  let body : Except Str (Str × List OutlineEntry) := do
    let text_elements := extract_text_with_layout pdf
    let headings := analyze_headings text_elements
    let title := extract_title headings text_elements
    let outline := headings.map (fun h => OutlineEntry.mk h.level h.text h.page)
    if elapsed > 10 then
      throw (s "PDF processing exceeded 10 second limit")
    pure (title, outline)
  match body with
  | Except.ok (t, o) => { title := t, outline := o, error := none }
  | Except.error e => { title := s "Error processing PDF", outline := [], error := some e }

/-! ## Concrete inputs used by the counterexamples and witnesses below -/

/-- Shape of every fragment built by the fallback page extraction: default
geometry, font size 12, not bold, not italic, position `"middle"`. -/
def defaultShape (f : Fragment) : Prop :=
  f.font_size = 12 ∧ f.is_bold = false ∧ f.is_italic = false ∧
    f.x0 = 0 ∧ f.y0 = 0 ∧ f.x1 = 0 ∧ f.y1 = 0 ∧
    f.font_name = [] ∧ f.position = s "middle"

/-- A 51-page document whose pages are all empty: the primary path raises
the page-limit error internally, the fallback truncates and yields nothing. -/
def c1pdf : PdfDoc := List.replicate 51 (Except.ok { objs := [], height := none })


/-- A fragment whose text has length exactly 2. -/
def c3frag : Fragment :=
  { text := s "AB", page := 1, x0 := 0, y0 := 0, x1 := 0, y1 := 0,
    font_size := 10, font_name := [], is_bold := false, is_italic := false,
    position := s "top" }

/-- The heading `analyze_headings` produces for `c3frag`. -/
def c3hd : Heading :=
  { level := Level.H1, text := s "AB", page := 1, font_size := 10,
    position := s "top" }


/-- Equal page and font size, position `"top"`, listed first. -/
def c4fragTop : Fragment :=
  { text := s "AAA", page := 1, x0 := 0, y0 := 0, x1 := 0, y1 := 0,
    font_size := 10, font_name := [], is_bold := false, is_italic := false,
    position := s "top" }

/-- Equal page and font size, position `"middle"`, listed second. -/
def c4fragMid : Fragment :=
  { text := s "BBB", page := 1, x0 := 0, y0 := 0, x1 := 0, y1 := 0,
    font_size := 10, font_name := [], is_bold := false, is_italic := false,
    position := s "middle" }

def c4hdTop : Heading :=
  { level := Level.H1, text := s "AAA", page := 1, font_size := 10,
    position := s "top" }

def c4hdMid : Heading :=
  { level := Level.H1, text := s "BBB", page := 1, font_size := 10,
    position := s "middle" }

/-- A second top-position fragment with the same page and font size. -/
def c4fragTop2 : Fragment :=
  { text := s "AAB", page := 1, x0 := 0, y0 := 0, x1 := 0, y1 := 0,
    font_size := 10, font_name := [], is_bold := false, is_italic := false,
    position := s "top" }

def c4hdTop2 : Heading :=
  { level := Level.H1, text := s "AAB", page := 1, font_size := 10,
    position := s "top" }


/-! ## Theorems -/

/-- A substitution-table pass can be evaluated in chunks. -/
theorem applyFixes_chunk (tbl : List (String × String)) (n : Nat) (t : Str) :
    applyFixes tbl t = applyFixes (tbl.drop n) (applyFixes (tbl.take n) t) := by
  unfold applyFixes
  conv_lhs => rw [← List.take_append_drop n tbl]
  rw [List.foldl_append]

/-! ## Staged evaluations of `fix_text_spacing` at the inputs used below.
The substitution tables are applied in chunks so that each `decide` stays
within a small kernel recursion depth. -/

theorem fixEval_a : fix_text_spacing (s "Questi  on  s") = (s "Questi on s") := by
  show stripL (punctLetterSub (rmWsBeforePunct (collapseWs (applyFixes
    additional_fixes (digitLetterSub (letterDigitSub (camelSub (applyFixes
    common_fixes (s "Questi  on  s"))))))))) = (s "Questi on s")
  have hc : applyFixes common_fixes (s "Questi  on  s") = (s "Questi  on  s") := by
    rw [applyFixes_chunk _ 30]
    rw [(by decide : applyFixes (common_fixes.take 30) (s "Questi  on  s") = (s "Questi  on  s"))]
    rw [applyFixes_chunk _ 30]
    rw [(by decide : applyFixes ((common_fixes.drop 30).take 30) (s "Questi  on  s") = (s "Questi  on  s"))]
    rw [applyFixes_chunk _ 30]
    rw [(by decide : applyFixes (((common_fixes.drop 30).drop 30).take 30) (s "Questi  on  s") = (s "Questi  on  s"))]
    rw [applyFixes_chunk _ 30]
    rw [(by decide : applyFixes ((((common_fixes.drop 30).drop 30).drop 30).take 30) (s "Questi  on  s") = (s "Questi  on  s"))]
    decide
  rw [hc]
  rw [(by decide : camelSub (s "Questi  on  s") = (s "Questi  on  s"))]
  rw [(by decide : letterDigitSub (s "Questi  on  s") = (s "Questi  on  s"))]
  rw [(by decide : digitLetterSub (s "Questi  on  s") = (s "Questi  on  s"))]
  have ha : applyFixes additional_fixes (s "Questi  on  s") = (s "Questi  on  s") := by
    rw [applyFixes_chunk _ 30]
    rw [(by decide : applyFixes (additional_fixes.take 30) (s "Questi  on  s") = (s "Questi  on  s"))]
    rw [applyFixes_chunk _ 30]
    rw [(by decide : applyFixes ((additional_fixes.drop 30).take 30) (s "Questi  on  s") = (s "Questi  on  s"))]
    rw [applyFixes_chunk _ 30]
    rw [(by decide : applyFixes (((additional_fixes.drop 30).drop 30).take 30) (s "Questi  on  s") = (s "Questi  on  s"))]
    rw [applyFixes_chunk _ 30]
    rw [(by decide : applyFixes ((((additional_fixes.drop 30).drop 30).drop 30).take 30) (s "Questi  on  s") = (s "Questi  on  s"))]
    rw [applyFixes_chunk _ 30]
    rw [(by decide : applyFixes (((((additional_fixes.drop 30).drop 30).drop 30).drop 30).take 30) (s "Questi  on  s") = (s "Questi  on  s"))]
    decide
  rw [ha]
  decide

theorem fixEval_b : fix_text_spacing (s "Questi on s") = (s "Questions") := by
  show stripL (punctLetterSub (rmWsBeforePunct (collapseWs (applyFixes
    additional_fixes (digitLetterSub (letterDigitSub (camelSub (applyFixes
    common_fixes (s "Questi on s"))))))))) = (s "Questions")
  have hc : applyFixes common_fixes (s "Questi on s") = (s "Questi on s") := by
    rw [applyFixes_chunk _ 30]
    rw [(by decide : applyFixes (common_fixes.take 30) (s "Questi on s") = (s "Questi on s"))]
    rw [applyFixes_chunk _ 30]
    rw [(by decide : applyFixes ((common_fixes.drop 30).take 30) (s "Questi on s") = (s "Questi on s"))]
    rw [applyFixes_chunk _ 30]
    rw [(by decide : applyFixes (((common_fixes.drop 30).drop 30).take 30) (s "Questi on s") = (s "Questi on s"))]
    rw [applyFixes_chunk _ 30]
    rw [(by decide : applyFixes ((((common_fixes.drop 30).drop 30).drop 30).take 30) (s "Questi on s") = (s "Questi on s"))]
    decide
  rw [hc]
  rw [(by decide : camelSub (s "Questi on s") = (s "Questi on s"))]
  rw [(by decide : letterDigitSub (s "Questi on s") = (s "Questi on s"))]
  rw [(by decide : digitLetterSub (s "Questi on s") = (s "Questi on s"))]
  have ha : applyFixes additional_fixes (s "Questi on s") = (s "Questions") := by
    rw [applyFixes_chunk _ 30]
    rw [(by decide : applyFixes (additional_fixes.take 30) (s "Questi on s") = (s "Questions"))]
    rw [applyFixes_chunk _ 30]
    rw [(by decide : applyFixes ((additional_fixes.drop 30).take 30) (s "Questions") = (s "Questions"))]
    rw [applyFixes_chunk _ 30]
    rw [(by decide : applyFixes (((additional_fixes.drop 30).drop 30).take 30) (s "Questions") = (s "Questions"))]
    rw [applyFixes_chunk _ 30]
    rw [(by decide : applyFixes ((((additional_fixes.drop 30).drop 30).drop 30).take 30) (s "Questions") = (s "Questions"))]
    rw [applyFixes_chunk _ 30]
    rw [(by decide : applyFixes (((((additional_fixes.drop 30).drop 30).drop 30).drop 30).take 30) (s "Questions") = (s "Questions"))]
    decide
  rw [ha]
  decide

theorem fixEval_c : fix_text_spacing (s "Questions") = (s "Questions") := by
  show stripL (punctLetterSub (rmWsBeforePunct (collapseWs (applyFixes
    additional_fixes (digitLetterSub (letterDigitSub (camelSub (applyFixes
    common_fixes (s "Questions"))))))))) = (s "Questions")
  have hc : applyFixes common_fixes (s "Questions") = (s "Questions") := by
    rw [applyFixes_chunk _ 30]
    rw [(by decide : applyFixes (common_fixes.take 30) (s "Questions") = (s "Questions"))]
    rw [applyFixes_chunk _ 30]
    rw [(by decide : applyFixes ((common_fixes.drop 30).take 30) (s "Questions") = (s "Questions"))]
    rw [applyFixes_chunk _ 30]
    rw [(by decide : applyFixes (((common_fixes.drop 30).drop 30).take 30) (s "Questions") = (s "Questions"))]
    rw [applyFixes_chunk _ 30]
    rw [(by decide : applyFixes ((((common_fixes.drop 30).drop 30).drop 30).take 30) (s "Questions") = (s "Questions"))]
    decide
  rw [hc]
  rw [(by decide : camelSub (s "Questions") = (s "Questions"))]
  rw [(by decide : letterDigitSub (s "Questions") = (s "Questions"))]
  rw [(by decide : digitLetterSub (s "Questions") = (s "Questions"))]
  have ha : applyFixes additional_fixes (s "Questions") = (s "Questions") := by
    rw [applyFixes_chunk _ 30]
    rw [(by decide : applyFixes (additional_fixes.take 30) (s "Questions") = (s "Questions"))]
    rw [applyFixes_chunk _ 30]
    rw [(by decide : applyFixes ((additional_fixes.drop 30).take 30) (s "Questions") = (s "Questions"))]
    rw [applyFixes_chunk _ 30]
    rw [(by decide : applyFixes (((additional_fixes.drop 30).drop 30).take 30) (s "Questions") = (s "Questions"))]
    rw [applyFixes_chunk _ 30]
    rw [(by decide : applyFixes ((((additional_fixes.drop 30).drop 30).drop 30).take 30) (s "Questions") = (s "Questions"))]
    rw [applyFixes_chunk _ 30]
    rw [(by decide : applyFixes (((((additional_fixes.drop 30).drop 30).drop 30).drop 30).take 30) (s "Questions") = (s "Questions"))]
    decide
  rw [ha]
  decide

/-! ## Helper lemmas -/

/-- The structured page loop never accumulates a fragment: the per-object
extraction sits behind the page-limit `raise`, so the loop either finishes
with the accumulator unchanged or raises. -/
theorem structuredLoop_ok_or_err (pdf : PdfDoc) : ∀ (n : Nat) (acc : List Fragment),
    structuredLoop n pdf acc = Except.ok acc ∨
      ∃ e, structuredLoop n pdf acc = Except.error e := by
  induction pdf with
  | nil => intro n acc; exact Or.inl rfl
  | cons x rest ih =>
    intro n acc
    cases x with
    | error e => exact Or.inr ⟨e, rfl⟩
    | ok pg =>
      by_cases h : n > 50
      · exact Or.inr ⟨_, by simp [structuredLoop, h]; rfl⟩
      · simpa [structuredLoop, h] using ih (n + 1) acc

/-- The primary extraction path always defers to the fallback. -/
theorem extract_twl_eq_simple (pdf : PdfDoc) :
    extract_text_with_layout pdf = extract_simple_text pdf := by
  rcases structuredLoop_ok_or_err pdf 1 [] with h | ⟨e, h⟩
  · simp [extract_text_with_layout, h]
  · simp [extract_text_with_layout, h]

/-- Membership in a left fold whose step only ever appends elements
satisfying `P`. -/
theorem foldl_step_mem {α β : Type} (P : α → Prop) (step : List α → β → List α)
    (hstep : ∀ acc x f, f ∈ step acc x → f ∈ acc ∨ P f) :
    ∀ (l : List β) (init : List α) (f : α), f ∈ l.foldl step init → f ∈ init ∨ P f := by
  intro l
  induction l with
  | nil => intro init f h; exact Or.inl h
  | cons x xs ih =>
    intro init f h
    simp only [List.foldl_cons] at h
    rcases ih (step init x) f h with h' | h'
    · exact hstep init x f h'
    · exact Or.inr h'

theorem simplePageFrags_shape (n : Nat) (pg : Page) :
    ∀ f ∈ simplePageFrags n pg, defaultShape f := by
  intro f hf
  simp only [simplePageFrags] at hf
  split at hf
  · refine (foldl_step_mem defaultShape _ ?_ _ [] f hf).resolve_left (by simp)
    intro acc x g hg
    simp only at hg
    split at hg
    · rcases List.mem_append.mp hg with h | h
      · exact Or.inl h
      · rw [List.mem_singleton.mp h]
        exact Or.inr ⟨rfl, rfl, rfl, rfl, rfl, rfl, rfl, rfl, rfl⟩
    · exact Or.inl hg
  · cases hf

theorem simpleLoop_shape (pdf : PdfDoc) : ∀ (n : Nat) (acc : List Fragment) (f : Fragment),
    f ∈ simpleLoop n pdf acc → f ∈ acc ∨ defaultShape f := by
  induction pdf with
  | nil => intro n acc f h; exact Or.inl h
  | cons x rest ih =>
    intro n acc f h
    cases x with
    | error e => exact Or.inl h
    | ok pg =>
      by_cases hn : n > 50
      · rw [simpleLoop, if_pos hn] at h; exact Or.inl h
      · rw [simpleLoop, if_neg hn] at h
        rcases ih (n + 1) _ f h with h' | h'
        · rcases List.mem_append.mp h' with h'' | h''
          · exact Or.inl h''
          · exact Or.inr (simplePageFrags_shape n pg f h'')
        · exact Or.inr h'

/-- Every fragment the fallback produces has the default shape. -/
theorem extract_simple_text_shape (pdf : PdfDoc) :
    ∀ f ∈ extract_simple_text pdf, defaultShape f := by
  intro f hf
  rcases simpleLoop_shape pdf 1 [] f hf with h | h
  · cases h
  · exact h

/-- Unfolding of the Boolean sort-key comparison into its propositional
lexicographic form. -/
theorem keyLe_eq (a b : Heading) : keyLe a b = true ↔
    (a.page < b.page ∨ (a.page = b.page ∧ (-a.font_size < -b.font_size ∨
      (-a.font_size = -b.font_size ∧
        (if a.position = s "top" then (1:Nat) else 0) ≤
          (if b.position = s "top" then (1:Nat) else 0))))) := by
  simp [keyLe, Bool.or_eq_true, Bool.and_eq_true, decide_eq_true_eq]

theorem keyLe_total (a b : Heading) : keyLe a b || keyLe b a := by
  rw [Bool.or_eq_true, keyLe_eq, keyLe_eq]
  rcases lt_trichotomy a.page b.page with h | h | h
  · exact Or.inl (Or.inl h)
  · rcases lt_trichotomy (-a.font_size) (-b.font_size) with h' | h' | h'
    · exact Or.inl (Or.inr ⟨h, Or.inl h'⟩)
    · rcases le_total
        ((if a.position = s "top" then (1:Nat) else 0))
        ((if b.position = s "top" then (1:Nat) else 0)) with h'' | h''
      · exact Or.inl (Or.inr ⟨h, Or.inr ⟨h', h''⟩⟩)
      · exact Or.inr (Or.inr ⟨h.symm, Or.inr ⟨h'.symm, h''⟩⟩)
    · exact Or.inr (Or.inr ⟨h.symm, Or.inl h'⟩)
  · exact Or.inr (Or.inl h)

theorem keyLe_trans (a b c : Heading) (hab : keyLe a b) (hbc : keyLe b c) :
    keyLe a c := by
  rw [keyLe_eq] at hab hbc ⊢
  rcases hab with h1 | ⟨h1, h1'⟩
  · rcases hbc with h2 | ⟨h2, h2'⟩
    · exact Or.inl (h1.trans h2)
    · exact Or.inl (h2 ▸ h1)
  · rcases hbc with h2 | ⟨h2, h2'⟩
    · exact Or.inl (h1 ▸ h2)
    · refine Or.inr ⟨h1.trans h2, ?_⟩
      rcases h1' with h3 | ⟨h3, h3'⟩
      · rcases h2' with h4 | ⟨h4, h4'⟩
        · exact Or.inl (h3.trans h4)
        · exact Or.inl (h4 ▸ h3)
      · rcases h2' with h4 | ⟨h4, h4'⟩
        · exact Or.inl (h3 ▸ h4)
        · exact Or.inr ⟨h3.trans h4, h3'.trans h4'⟩

/-- Evaluation of the stable sort on a two-element list. -/
theorem mergeSort_pair {α : Type} (le : α → α → Bool) (a b : α) :
    [a, b].mergeSort le = if le a b then [a, b] else [b, a] := by
  rw [List.mergeSort]
  simp [List.merge]

/-- Every heading collected by the classification pass has text length
between 2 and 200 (both inclusive: the source skips only `len < 2` and
`len > 200`). -/
theorem classifyAll_length_bounds (elems : List Fragment) (mf af : ℚ) :
    ∀ h ∈ classifyAll elems mf af, 2 ≤ h.text.length ∧ h.text.length ≤ 200 := by
  intro h hh
  refine (foldl_step_mem (fun h => 2 ≤ h.text.length ∧ h.text.length ≤ 200)
    _ ?_ _ [] h hh).resolve_left (by simp)
  intro acc e g hg
  simp only [classifyAll] at hg
  split at hg
  · exact Or.inl hg
  · rename_i hlen
    push_neg at hlen
    split at hg
    · rcases List.mem_append.mp hg with h' | h'
      · exact Or.inl h'
      · rw [List.mem_singleton.mp h']
        exact Or.inr ⟨hlen.1, hlen.2⟩
    · exact Or.inl hg

/-- `find?` returns the head of `filter`. -/
theorem find?_eq_filterHead {α : Type} (p : α → Bool) :
    ∀ l : List α, l.find? p = (l.filter p).head? := by
  intro l
  induction l with
  | nil => rfl
  | cons x xs ih =>
    by_cases hpx : p x
    · rw [List.find?_cons_of_pos _ hpx, List.filter_cons_of_pos hpx]
      rfl
    · rw [List.find?_cons_of_neg _ hpx, List.filter_cons_of_neg hpx]
      exact ih

/-- Reduction of `extract_outline` when the time budget is respected. -/
theorem extract_outline_ok (pdf : PdfDoc) (elapsed : ℚ) (h : ¬ elapsed > 10) :
    extract_outline pdf elapsed =
      { title := extract_title (analyze_headings (extract_text_with_layout pdf))
          (extract_text_with_layout pdf)
        outline := (analyze_headings (extract_text_with_layout pdf)).map
          (fun h => OutlineEntry.mk h.level h.text h.page)
        error := none } := by
  simp only [extract_outline, if_neg h]
  rfl

/-- Reduction of `extract_outline` when the post-hoc timeout fires. -/
theorem extract_outline_timeout (pdf : PdfDoc) (elapsed : ℚ) (h : elapsed > 10) :
    extract_outline pdf elapsed =
      { title := s "Error processing PDF", outline := []
        error := some (s "PDF processing exceeded 10 second limit") } := by
  simp only [extract_outline, if_pos h]
  rfl

/-- `analyze_headings` of the empty fragment list is empty. -/
theorem analyze_headings_nil : analyze_headings [] = [] := by
  unfold analyze_headings
  rw [show headingsPreSort [] = [] from rfl]
  exact List.mergeSort_nil

/-- The primary extraction of the empty page stream is empty. -/
theorem ettwl_nil : extract_text_with_layout [] = [] := by decide

/-! ## Claims -/

/-- C2: the structured per-object loop is nested under the `page_num > 50`
branch after the `raise`, so the primary path never appends a fragment;
`extract_text_with_layout` always returns exactly the fallback
`extract_simple_text` result, and every fragment the pipeline sees has font
size 12, is not bold, is not italic, has a zero bounding box and position
`"middle"`. -/
theorem c2_primary_equals_fallback (pdf : PdfDoc) :
    extract_text_with_layout pdf = extract_simple_text pdf ∧
      (extract_text_with_layout pdf).all
        (fun f => decide (f.font_size = 12 ∧ f.is_bold = false ∧ f.is_italic = false ∧
          f.x0 = 0 ∧ f.y0 = 0 ∧ f.x1 = 0 ∧ f.y1 = 0 ∧ f.position = s "middle")) = true := by
  refine ⟨extract_twl_eq_simple pdf, ?_⟩
  rw [List.all_eq_true]
  intro f hf
  rw [decide_eq_true_eq]
  rw [extract_twl_eq_simple pdf] at hf
  have h := extract_simple_text_shape pdf f hf
  exact ⟨h.1, h.2.1, h.2.2.1, h.2.2.2.1, h.2.2.2.2.1, h.2.2.2.2.2.1,
    h.2.2.2.2.2.2.1, h.2.2.2.2.2.2.2.2⟩

/-- C5 counterexample: `fix_text_spacing` is not idempotent.  On
`"Questi  on  s"` the first pass only collapses the double spaces, producing
`"Questi on s"`, which is a key of the second substitution table; a second
pass therefore rewrites it to `"Questions"`. -/
theorem c5_counterexample :
    fix_text_spacing (fix_text_spacing (s "Questi  on  s")) ≠
      fix_text_spacing (s "Questi  on  s") := by
  rw [fixEval_a, fixEval_b]
  decide

/-- C5 amended: normalization is a no-op on text already in normal form
(a fixed point of `fix_text_spacing`); full idempotence fails (see the
counterexample). -/
theorem c5_amended (t : Str) (h : fix_text_spacing t = t) :
    fix_text_spacing (fix_text_spacing t) = fix_text_spacing t := by
  rw [h]
  exact h

/-- C5 witness: `"Questions"` is already normalized, and re-normalizing it
is a no-op. -/
theorem c5_witness :
    fix_text_spacing (s "Questions") = s "Questions" ∧
      fix_text_spacing (fix_text_spacing (s "Questions")) =
        fix_text_spacing (s "Questions") :=
  ⟨fixEval_c, c5_amended (s "Questions") fixEval_c⟩

/-- C8: the result of `extract_outline` either has no `error` field, or it is
exactly the error shape: title `"Error processing PDF"` and empty outline.
The embedded pipeline is a total function and the only exception reaching the
document-level `except` is the post-hoc `TimeoutError`, so `extract_outline`
itself never raises. -/
theorem c8_error_shape (pdf : PdfDoc) (elapsed : ℚ) :
    (extract_outline pdf elapsed).error = none ∨
      ((extract_outline pdf elapsed).title = s "Error processing PDF" ∧
        (extract_outline pdf elapsed).outline = []) := by
  by_cases h : elapsed > 10
  · right
    rw [extract_outline_timeout pdf elapsed h]
    exact ⟨rfl, rfl⟩
  · left
    rw [extract_outline_ok pdf elapsed h]

/-- C10: the fragment `"Overview"` at font size 9 with document statistics
`maxFontSize = 18`, `meanFontSize = 10` has ratio `1/2`: every H1 disjunct
fails, every H2 disjunct fails (`ratio > 0.5` is strict and the text has no
leading digit), and the H3 disjunct `ratio > 0.3` holds. -/
theorem c10_overview_h3 :
    classify_heading_level (s "Overview") 9 false (s "middle") 18 10 =
      some Level.H3 := by
  have h1 : ((18:ℚ) > 0) = True := eq_true (by norm_num)
  have h2 : (((9:ℚ)/18) > 0.8) = False := eq_false (by norm_num)
  have h3 : (((9:ℚ)/18) > 0.5) = False := eq_false (by norm_num)
  have h4 : (((9:ℚ)/18) > 0.3) = True := eq_true (by norm_num)
  simp +decide [classify_heading_level, h1, h2, h3, h4, startsWithAnyL,
    startsWithL, pyIsUpper, s]

/-- C7: title selection follows the priority chain — the first H1 heading in
the (sorted) heading list; else the first H2; else the first fragment in
original order with text length strictly between 3 and 100, position
`"top"` and positive font size; else the literal `"Untitled Document"`. -/
theorem c7_title_chain (headings : List Heading) (text_elements : List Fragment) :
    extract_title headings text_elements =
      match headings.filter (fun h => decide (h.level = Level.H1)) with
      | h :: _ => h.text
      | [] =>
        match headings.filter (fun h => decide (h.level = Level.H2)) with
        | h :: _ => h.text
        | [] =>
          match text_elements.filter
              (fun e => decide (e.text.length > 3 ∧ e.text.length < 100 ∧
                e.position = s "top" ∧ e.font_size > 0)) with
          | e :: _ => e.text
          | [] => s "Untitled Document" := by
  unfold extract_title
  rw [find?_eq_filterHead, find?_eq_filterHead, find?_eq_filterHead]
  cases headings.filter (fun h => decide (h.level = Level.H1)) with
  | cons h t => rfl
  | nil =>
    cases headings.filter (fun h => decide (h.level = Level.H2)) with
    | cons h t => rfl
    | nil =>
      cases text_elements.filter
          (fun e => decide (e.text.length > 3 ∧ e.text.length < 100 ∧
            e.position = s "top" ∧ e.font_size > 0)) with
      | cons e t => rfl
      | nil => rfl

/-- If no fragment has a positive font size, the classification pass finds
no statistics and produces no headings. -/
theorem analyze_headings_zero_fonts (elems : List Fragment)
    (hfs : ∀ f ∈ elems, f.font_size = 0) : analyze_headings elems = [] := by
  have hfilter : elems.filter (fun e => decide (e.font_size > 0)) = [] := by
    rw [List.filter_eq_nil_iff]
    intro a ha
    rw [hfs a ha]
    simp
  unfold analyze_headings headingsPreSort
  rw [hfilter]
  exact List.mergeSort_nil

/-- C9: when no extracted fragment has a known font size (in particular when
there are no fragments at all), the document still succeeds: no headings, an
empty outline, no `error` field, and the default title. -/
theorem c9_no_font_info (pdf : PdfDoc) (elapsed : ℚ)
    (ht : elapsed ≤ 10)
    (hfs : ∀ f ∈ extract_text_with_layout pdf, f.font_size = 0) :
    analyze_headings (extract_text_with_layout pdf) = [] ∧
      extract_outline pdf elapsed =
        { title := s "Untitled Document", outline := [], error := none } := by
  have hana := analyze_headings_zero_fonts _ hfs
  refine ⟨hana, ?_⟩
  rw [extract_outline_ok pdf elapsed (not_lt.mpr ht), hana]
  have htitle : extract_title [] (extract_text_with_layout pdf) =
      s "Untitled Document" := by
    unfold extract_title
    rw [show (List.find? (fun h => decide (h.level = Level.H1)) [] : Option Heading)
        = none from rfl]
    rw [show (List.find? (fun h => decide (h.level = Level.H2)) [] : Option Heading)
        = none from rfl]
    rw [List.find?_eq_none.mpr ?_]
    intro e he
    rw [decide_eq_true_eq]
    intro hcond
    rw [hfs e he] at hcond
    exact absurd hcond.2.2.2 (by norm_num)
  rw [htitle]
  rfl

/-- C9 witness: a stream with no pages at all yields no fragments and the
default successful result. -/
theorem c9_witness :
    analyze_headings (extract_text_with_layout []) = [] ∧
      extract_outline [] 0 =
        { title := s "Untitled Document", outline := [], error := none } :=
  c9_no_font_info [] 0 (by norm_num)
    (by intro f hf; rw [ettwl_nil] at hf; cases hf)

/-- If at least `52 - n` pages remain and none of them is an iterator
exception, the structured loop reaches page index 51 and raises the
page-limit error. -/
theorem structuredLoop_pageLimit :
    ∀ (pdf : PdfDoc) (n : Nat) (acc : List Fragment), n ≤ 51 →
      52 - n ≤ pdf.length →
      (∀ x ∈ pdf.take (52 - n), ∃ pg, x = Except.ok pg) →
      structuredLoop n pdf acc = Except.error (s "PDF exceeds 50 page limit") := by
  intro pdf
  induction pdf with
  | nil =>
    intro n acc hn hlen hok
    simp at hlen
    omega
  | cons x rest ih =>
    intro n acc hn hlen hok
    have hpos : 1 ≤ 52 - n := by omega
    have hx : x ∈ (x :: rest).take (52 - n) := by
      rw [show 52 - n = (51 - n) + 1 by omega, List.take_succ_cons]
      exact List.mem_cons_self x _
    obtain ⟨pg, hpg⟩ := hok x hx
    subst hpg
    by_cases h50 : n > 50
    · rw [structuredLoop, if_pos h50]
      rfl
    · rw [structuredLoop, if_neg h50]
      refine ih (n + 1) acc (by omega) (by simp at hlen ⊢; omega) ?_
      intro y hy
      refine hok y ?_
      rw [show 52 - n = (52 - (n + 1)) + 1 by omega, List.take_succ_cons]
      exact List.mem_cons_of_mem _ hy

/-- C1 counterexample: on a 51-page document the primary ingestion does
raise the page-limit error, but that exception is swallowed inside
`extract_text_with_layout` (its own `except` triggers the fallback), so the
document-level result has `error = none` — not the non-empty `error` the
claim requires. -/
theorem c1_counterexample :
    structuredLoop 1 c1pdf [] = Except.error (s "PDF exceeds 50 page limit") ∧
      (extract_outline c1pdf 0).error = none := by
  constructor
  · rfl
  · have h0 : ¬ (0:ℚ) > 10 := by norm_num
    rw [extract_outline_ok c1pdf 0 h0]

/-- C1 amended: when primary ingestion reaches a page index greater than 50
it raises the page-limit `ValueError`, but the exception is caught by
`extract_text_with_layout`'s own handler, which falls back to
`extract_simple_text` (silently truncated to 50 pages); the error never
reaches `extract_outline`'s document-level catch, and within the time budget
the result carries no `error` field. -/
theorem c1_page_limit_swallowed (pdf : PdfDoc) (elapsed : ℚ)
    (hlen : 51 ≤ pdf.length)
    (hok : ∀ x ∈ pdf.take 51, ∃ pg, x = Except.ok pg)
    (ht : elapsed ≤ 10) :
    structuredLoop 1 pdf [] = Except.error (s "PDF exceeds 50 page limit") ∧
      extract_text_with_layout pdf = extract_simple_text pdf ∧
      (extract_outline pdf elapsed).error = none := by
  refine ⟨structuredLoop_pageLimit pdf 1 [] (by omega) (by omega) hok,
    extract_twl_eq_simple pdf, ?_⟩
  rw [extract_outline_ok pdf elapsed (not_lt.mpr ht)]

/-- C1 witness: the amended statement at the concrete 51-page document. -/
theorem c1_witness :
    structuredLoop 1 c1pdf [] = Except.error (s "PDF exceeds 50 page limit") ∧
      extract_text_with_layout c1pdf = extract_simple_text c1pdf ∧
      (extract_outline c1pdf 0).error = none :=
  c1_page_limit_swallowed c1pdf 0 (by decide)
    (by
      intro x hx
      have hx' : x ∈ c1pdf := List.mem_of_mem_take hx
      exact ⟨_, List.eq_of_mem_replicate hx'⟩)
    (by norm_num)

/-- `analyze_headings` classifies the length-2 fragment (the source skips
only `len < 2` and `len > 200`, so length exactly 2 is classified; all-caps
short text makes it H1). -/
theorem c3_eval : analyze_headings [c3frag] = [c3hd] := by
  have hf : (decide ((10:ℚ) > 0)) = true := by decide
  have h1 : (((10:ℚ)) > 0) = True := eq_true (by norm_num)
  have h2 : (((10:ℚ)/10) > 0.8) = True := eq_true (by norm_num)
  simp +decide [analyze_headings, headingsPreSort, classifyAll,
    classify_heading_level, c3frag, c3hd, List.filter, hf, h1, h2,
    startsWithAnyL, startsWithL, pyIsUpper, s]

/-- C3 counterexample: a fragment of text length exactly 2 (`"AB"`) does get
classified, so it is false that fragments with length at most 2 never
produce a heading. -/
theorem c3_counterexample :
    ¬ ∀ (elems : List Fragment), ∀ h ∈ analyze_headings elems,
        2 < h.text.length ∧ h.text.length < 200 := by
  intro hall
  have h := hall [c3frag] c3hd (by rw [c3_eval]; exact List.mem_singleton.mpr rfl)
  have : c3hd.text.length = 2 := rfl
  omega

/-- C3 amended: classification is attempted exactly for text lengths from 2
to 200 inclusive (the source skips `len < 2` and `len > 200`), so every
produced heading has text length in `[2, 200]`. -/
theorem headingsPreSort_cases (elems : List Fragment) :
    headingsPreSort elems = [] ∨
      ∃ mf af, headingsPreSort elems = classifyAll elems mf af := by
  simp only [headingsPreSort]
  split
  · exact Or.inl rfl
  · exact Or.inr ⟨_, _, rfl⟩

theorem c3_length_bounds (elems : List Fragment) :
    ∀ h ∈ analyze_headings elems, 2 ≤ h.text.length ∧ h.text.length ≤ 200 := by
  intro h hh
  have hmem : h ∈ headingsPreSort elems := List.mem_mergeSort.mp hh
  rcases headingsPreSort_cases elems with hcase | ⟨mf, af, hcase⟩
  · rw [hcase] at hmem
    cases hmem
  · rw [hcase] at hmem
    exact classifyAll_length_bounds elems _ _ h hmem

/-- C3 witness: the bounds at the concrete length-2 heading. -/
theorem c3_witness : 2 ≤ c3hd.text.length ∧ c3hd.text.length ≤ 200 :=
  c3_length_bounds [c3frag] c3hd
    (by rw [c3_eval]; exact List.mem_singleton.mpr rfl)

theorem c4_presort_eval :
    headingsPreSort [c4fragTop, c4fragMid] = [c4hdTop, c4hdMid] := by
  have hf : (decide ((10:ℚ) > 0)) = true := by decide
  have h1 : (((10:ℚ)) > 0) = True := eq_true (by norm_num)
  have h2 : (((10:ℚ)/10) > 0.8) = True := eq_true (by norm_num)
  simp +decide [headingsPreSort, classifyAll, classify_heading_level,
    c4fragTop, c4fragMid, c4hdTop, c4hdMid, List.filter, hf, h1, h2,
    startsWithAnyL, startsWithL, pyIsUpper, s]

/-- At equal page and font size, the sort puts the `"middle"` heading before
the `"top"` one: ascending order on the Boolean `position == "top"` places
`False` (non-top) first. -/
theorem c4_eval :
    analyze_headings [c4fragTop, c4fragMid] = [c4hdMid, c4hdTop] := by
  unfold analyze_headings
  rw [c4_presort_eval, mergeSort_pair]
  rw [show keyLe c4hdTop c4hdMid = false from by decide]
  rfl

/-- C4 counterexample: among headings with equal page and equal font size the
one at position `"top"` sorts after the others, not before: on the concrete
input the output order is `[middle, top]`, refuting the claimed tie-break. -/
theorem c4_counterexample :
    ¬ ∀ (elems : List Fragment), (analyze_headings elems).Pairwise
        (fun a b => a.page = b.page → a.font_size = b.font_size →
          b.position = s "top" → a.position = s "top") := by
  intro hall
  have h := hall [c4fragTop, c4fragMid]
  rw [c4_eval] at h
  have h2 := (List.pairwise_cons.mp h).1 c4hdTop (List.mem_singleton.mpr rfl)
    rfl rfl rfl
  exact absurd h2 (by decide)

/-- C4 amended: `analyze_headings` returns a permutation of the classified
list, sorted ascending by the key `(page, -fontSize, positionBucket == top)`
— so within equal page and font size the headings *not* at the top sort
first — and the sort is stable: any key-ordered pair keeps its original
relative order. -/
theorem c4_sort_order (elems : List Fragment) :
    List.Perm (analyze_headings elems) (headingsPreSort elems) ∧
      (analyze_headings elems).Pairwise (fun a b => keyLe a b = true) ∧
      (∀ a b : Heading, [a, b].Sublist (headingsPreSort elems) →
        keyLe a b = true → [a, b].Sublist (analyze_headings elems)) := by
  refine ⟨List.mergeSort_perm _ _, ?_, ?_⟩
  · exact List.sorted_mergeSort
      (fun a b c hab hbc => keyLe_trans a b c hab hbc)
      (fun a b => keyLe_total a b) (headingsPreSort elems)
  · intro a b hsub hab
    exact List.pair_sublist_mergeSort
      (fun a b c hab hbc => keyLe_trans a b c hab hbc)
      (fun a b => keyLe_total a b) hab hsub

theorem c4w_presort_eval :
    headingsPreSort [c4fragTop, c4fragTop2] = [c4hdTop, c4hdTop2] := by
  have hf : (decide ((10:ℚ) > 0)) = true := by decide
  have h1 : (((10:ℚ)) > 0) = True := eq_true (by norm_num)
  have h2 : (((10:ℚ)/10) > 0.8) = True := eq_true (by norm_num)
  simp +decide [headingsPreSort, classifyAll, classify_heading_level,
    c4fragTop, c4fragTop2, c4hdTop, c4hdTop2, List.filter, hf, h1, h2,
    startsWithAnyL, startsWithL, pyIsUpper, s]

/-- C4 witness: stability on a concrete equal-key pair. -/
theorem c4_witness :
    [c4hdTop, c4hdTop2].Sublist (analyze_headings [c4fragTop, c4fragTop2]) :=
  (c4_sort_order [c4fragTop, c4fragTop2]).2.2 c4hdTop c4hdTop2
    (by rw [c4w_presort_eval]) (by decide)

/-- C6: heading classification is monotone in font size.  With text,
boldness, position and the document statistics fixed, raising the font size
never un-classifies a fragment and never demotes it (order H3 < H2 < H1 via
`Level.rank`). -/
theorem c6_monotone (text : Str) (is_bold : Bool) (position : Str)
    (max_font_size avg_font_size s1 s2 : ℚ) (hs : s1 ≤ s2) (l1 : Level)
    (h1 : classify_heading_level text s1 is_bold position max_font_size
      avg_font_size = some l1) :
    ∃ l2, classify_heading_level text s2 is_bold position max_font_size
        avg_font_size = some l2 ∧ l1.rank ≤ l2.rank := by
  simp only [classify_heading_level] at h1 ⊢
  set r1 := (if max_font_size > 0 then s1 / max_font_size else 0) with hr1e
  set r2 := (if max_font_size > 0 then s2 / max_font_size else 0) with hr2e
  have hr : r1 ≤ r2 := by
    rw [hr1e, hr2e]
    split_ifs with hm
    · exact (div_le_div_iff_of_pos_right hm).mpr hs
    · exact le_refl 0
  have hA : (r1 > 0.8 ∨ (r1 > 0.6 ∧ is_bold = true ∧ position = s "top") ∨
        startsWithAnyL text [s "Chapter", s "Section", s "Part",
          s "Introduction", s "Conclusion"] = true ∨
        (text.length < 50 ∧ pyIsUpper text = true)) →
      (r2 > 0.8 ∨ (r2 > 0.6 ∧ is_bold = true ∧ position = s "top") ∨
        startsWithAnyL text [s "Chapter", s "Section", s "Part",
          s "Introduction", s "Conclusion"] = true ∨
        (text.length < 50 ∧ pyIsUpper text = true)) := by
    rintro (h | ⟨h, hb, hp⟩ | h | h)
    · exact Or.inl (lt_of_lt_of_le h hr)
    · exact Or.inr (Or.inl ⟨lt_of_lt_of_le h hr, hb, hp⟩)
    · exact Or.inr (Or.inr (Or.inl h))
    · exact Or.inr (Or.inr (Or.inr h))
  have hB : (r1 > 0.5 ∨ (r1 > 0.4 ∧ is_bold = true) ∨
        startsWithAnyL text [s "1.", s "2.", s "3.", s "4.", s "5.", s "6.",
          s "7.", s "8.", s "9."] = true ∨
        (text.length < 80 ∧ (text.take 3).any isDigit09 = true)) →
      (r2 > 0.5 ∨ (r2 > 0.4 ∧ is_bold = true) ∨
        startsWithAnyL text [s "1.", s "2.", s "3.", s "4.", s "5.", s "6.",
          s "7.", s "8.", s "9."] = true ∨
        (text.length < 80 ∧ (text.take 3).any isDigit09 = true)) := by
    rintro (h | ⟨h, hb⟩ | h | h)
    · exact Or.inl (lt_of_lt_of_le h hr)
    · exact Or.inr (Or.inl ⟨lt_of_lt_of_le h hr, hb⟩)
    · exact Or.inr (Or.inr (Or.inl h))
    · exact Or.inr (Or.inr (Or.inr h))
  have hC : (r1 > 0.3 ∨ (r1 > 0.25 ∧ is_bold = true) ∨
        startsWithAnyL text [['•'], ['●'], ['-'], ['○']] = true ∨
        (text.length < 120 ∧ r1 > avg_font_size / max_font_size)) →
      (r2 > 0.3 ∨ (r2 > 0.25 ∧ is_bold = true) ∨
        startsWithAnyL text [['•'], ['●'], ['-'], ['○']] = true ∨
        (text.length < 120 ∧ r2 > avg_font_size / max_font_size)) := by
    rintro (h | ⟨h, hb⟩ | h | ⟨h, h'⟩)
    · exact Or.inl (lt_of_lt_of_le h hr)
    · exact Or.inr (Or.inl ⟨lt_of_lt_of_le h hr, hb⟩)
    · exact Or.inr (Or.inr (Or.inl h))
    · exact Or.inr (Or.inr (Or.inr ⟨h, lt_of_lt_of_le h' hr⟩))
  by_cases a1 : (r1 > 0.8 ∨ (r1 > 0.6 ∧ is_bold = true ∧ position = s "top") ∨
      startsWithAnyL text [s "Chapter", s "Section", s "Part",
        s "Introduction", s "Conclusion"] = true ∨
      (text.length < 50 ∧ pyIsUpper text = true))
  · rw [if_pos a1] at h1
    rw [if_pos (hA a1)]
    cases Option.some.inj h1
    exact ⟨Level.H1, rfl, le_refl _⟩
  · rw [if_neg a1] at h1
    by_cases a2 : (r2 > 0.8 ∨ (r2 > 0.6 ∧ is_bold = true ∧ position = s "top") ∨
        startsWithAnyL text [s "Chapter", s "Section", s "Part",
          s "Introduction", s "Conclusion"] = true ∨
        (text.length < 50 ∧ pyIsUpper text = true))
    · rw [if_pos a2]
      by_cases b1 : (r1 > 0.5 ∨ (r1 > 0.4 ∧ is_bold = true) ∨
          startsWithAnyL text [s "1.", s "2.", s "3.", s "4.", s "5.", s "6.",
            s "7.", s "8.", s "9."] = true ∨
          (text.length < 80 ∧ (text.take 3).any isDigit09 = true))
      · rw [if_pos b1] at h1
        cases Option.some.inj h1
        exact ⟨Level.H1, rfl, by decide⟩
      · rw [if_neg b1] at h1
        by_cases c1 : (r1 > 0.3 ∨ (r1 > 0.25 ∧ is_bold = true) ∨
            startsWithAnyL text [['•'], ['●'], ['-'], ['○']] = true ∨
            (text.length < 120 ∧ r1 > avg_font_size / max_font_size))
        · rw [if_pos c1] at h1
          cases Option.some.inj h1
          exact ⟨Level.H1, rfl, by decide⟩
        · rw [if_neg c1] at h1
          cases h1
    · rw [if_neg a2]
      by_cases b1 : (r1 > 0.5 ∨ (r1 > 0.4 ∧ is_bold = true) ∨
          startsWithAnyL text [s "1.", s "2.", s "3.", s "4.", s "5.", s "6.",
            s "7.", s "8.", s "9."] = true ∨
          (text.length < 80 ∧ (text.take 3).any isDigit09 = true))
      · rw [if_pos b1] at h1
        rw [if_pos (hB b1)]
        cases Option.some.inj h1
        exact ⟨Level.H2, rfl, le_refl _⟩
      · rw [if_neg b1] at h1
        by_cases b2 : (r2 > 0.5 ∨ (r2 > 0.4 ∧ is_bold = true) ∨
            startsWithAnyL text [s "1.", s "2.", s "3.", s "4.", s "5.", s "6.",
              s "7.", s "8.", s "9."] = true ∨
            (text.length < 80 ∧ (text.take 3).any isDigit09 = true))
        · rw [if_pos b2]
          by_cases c1 : (r1 > 0.3 ∨ (r1 > 0.25 ∧ is_bold = true) ∨
              startsWithAnyL text [['•'], ['●'], ['-'], ['○']] = true ∨
              (text.length < 120 ∧ r1 > avg_font_size / max_font_size))
          · rw [if_pos c1] at h1
            cases Option.some.inj h1
            exact ⟨Level.H2, rfl, by decide⟩
          · rw [if_neg c1] at h1
            cases h1
        · rw [if_neg b2]
          by_cases c1 : (r1 > 0.3 ∨ (r1 > 0.25 ∧ is_bold = true) ∨
              startsWithAnyL text [['•'], ['●'], ['-'], ['○']] = true ∨
              (text.length < 120 ∧ r1 > avg_font_size / max_font_size))
          · rw [if_pos c1] at h1
            rw [if_pos (hC c1)]
            cases Option.some.inj h1
            exact ⟨Level.H3, rfl, le_refl _⟩
          · rw [if_neg c1] at h1
            cases h1

/-- C6 witness: `"Hello"` at font size 6 (ratio 0.6 with max 10) is H2; at
font size 8 the classification still exists and does not demote. -/
theorem c6_witness :
    ∃ l2, classify_heading_level (s "Hello") 8 false (s "middle") 10 5 =
        some l2 ∧ Level.rank Level.H2 ≤ Level.rank l2 :=
  c6_monotone (s "Hello") false (s "middle") 10 5 6 8 (by decide) Level.H2
    (by
      have h1 : (((10:ℚ)) > 0) = True := eq_true (by norm_num)
      have h2 : (((6:ℚ)/10) > 0.8) = False := eq_false (by norm_num)
      have h3 : (((6:ℚ)/10) > 0.6) = False := eq_false (by norm_num)
      have h4 : (((6:ℚ)/10) > 0.5) = True := eq_true (by norm_num)
      simp +decide [classify_heading_level, h1, h2, h3, h4, startsWithAnyL,
        startsWithL, pyIsUpper, s])
